import Mathlib

/-!
Verification of the selscrape process-supervision and stream-multiplexing
engine (file selscrape/__init__.py), via a shallow embedding.

Embedding conventions:
* Python exceptions become the `PyExc` type; fallible code returns either an
  `Option`/`Except` value or a result type with an explicit failure constructor.
* The thread-per-stream multiplexer `MergedStream` is modelled by the sequence
  of items that ends up in its FIFO queue.  Each reader thread
  (`MergedStream.stream_pusher`) contributes its stream's lines, in order,
  followed by a close notification; the queue contents observed by the
  consumer are an arbitrary order-preserving interleaving (`Shuffle`) of those
  per-thread sequences, which quantifies over every scheduling of the threads.
* Context managers (`with_proc`, `with_selenium`) are modelled by `Comp`, a
  computation recorded as the list of events it performs plus the exception
  (if any) it propagates; `seqc` and `tryFin` give Python's statement
  sequencing and try/finally semantics.
* `random.randint` and the behaviour of spawned child processes are oracles
  passed as function arguments (attempt index to chosen value / outcome), so
  theorems quantify over every random sequence and every process behaviour.
-/

/-- Exceptions of the embedded Python code: a missing environment key
(`KeyError`) or a generic `Exception(msg)`. -/
inductive PyExc where
  | keyError (key : String)
  | exception (msg : String)
  deriving DecidableEq

/-- Observable events performed by the process-management code: spawning,
killing and reaping (waiting on) a child process identified by a small tag,
starting and stopping the selenium client, and sleeping. -/
inductive Ev where
  | spawn (pid : Nat)
  | kill (pid : Nat)
  | wait (pid : Nat)
  | clientStart
  | clientStop
  | sleep (n : Nat)
  deriving DecidableEq

/-- A computation, recorded as the events it performs in order together with
the exception it propagates (none if it finishes normally). -/
structure Comp where
  evs : List Ev
  exc : Option PyExc
  deriving DecidableEq

/-- Sequencing of two Python statements: if the first raises, the second never
runs. -/
def seqc (c1 c2 : Comp) : Comp :=
  match c1.exc with
  | some _ => c1
  | none => ⟨c1.evs ++ c2.evs, c2.exc⟩

/-- Python try/finally: the handler always runs after the body, and an
exception raised by the handler replaces the body's in-flight exception. -/
def tryFin (c fin : Comp) : Comp :=
  ⟨c.evs ++ fin.evs, match fin.exc with | some e => some e | none => c.exc⟩

/-- Embedding of with_proc (lines 95-105): spawn a process, run the body,
and on every exit path try to kill the process and, in a nested finally,
wait on it. -/
def with_proc (pid : Nat) (spawnExc killExc : Option PyExc) (body : Comp) : Comp :=
  seqc ⟨[Ev.spawn pid], spawnExc⟩
    (tryFin body (tryFin ⟨[Ev.kill pid], killExc⟩ ⟨[Ev.wait pid], none⟩))

/-- Embedding of with_selenium (lines 109-133): with_proc around the headless
X server (tag 0), inside it with_proc around the selenium server (tag 1),
inside that the client startup `startC` (the selenium(...) construction plus
start_selenium) and then try { body } finally { sel.stop() }. -/
def with_selenium (startC : Comp) (stopExc : Option PyExc)
    (xSpawnExc xKillExc sSpawnExc sKillExc : Option PyExc) (body : Comp) : Comp :=
  with_proc 0 xSpawnExc xKillExc
    (with_proc 1 sSpawnExc sKillExc
      (seqc startC (tryFin body ⟨[Ev.clientStop], stopExc⟩)))

/-- Items travelling through the MergedStream queue: a line read from some
stream, or the close notification a reader thread enqueues when its stream
reaches end-of-file.  Streams are identified by a tag. -/
inductive Item where
  | line (s : String)
  | close (sid : Nat)
  deriving DecidableEq

/-- Embedding of MergedStream.stream_pusher (lines 71-79): the sequence of
items one reader thread enqueues, given the lines its stream yields before
end-of-file.  An empty-string read signals end-of-file, so the thread
enqueues a close notification and exits. -/
def MergedStream.stream_pusher (sid : Nat) : List String → List Item
  | [] => [Item.close sid]
  | l :: rest =>
    if l = "" then [Item.close sid]
    else Item.line l :: MergedStream.stream_pusher sid rest

/-- Embedding of MergedStream.readline (lines 62-69) acting on the pending
queue contents and the current list of still-open stream tags.  It pops items
while the active list is nonempty, removing a tag on a close notification and
returning the first line found; with no open streams left it returns the end
marker at once.  A value of none means the Python call would block on
q.get() (empty queue with open streams remaining). -/
def MergedStream.readline : List Item → List Nat → Option (String × List Item × List Nat)
  | q, [] => some ("", q, [])
  | [], _ :: _ => none
  | Item.line l :: q, s :: ss => some (l, q, s :: ss)
  | Item.close i :: q, s :: ss => MergedStream.readline q ((s :: ss).erase i)

/-- The lines produced by calling MergedStream.readline repeatedly, on a
given queue trace and active list, up to (and not including) the first end
marker.  This is the full consumption sequence of the multiplexer. -/
def MergedStream.drainLines : List Item → List Nat → List String
  | _, [] => []
  | [], _ :: _ => []
  | Item.line l :: q, s :: ss => l :: MergedStream.drainLines q (s :: ss)
  | Item.close i :: q, s :: ss => MergedStream.drainLines q ((s :: ss).erase i)

/-- The items a reader slot still has to push: none stands for a thread that
has already pushed its close notification, some (sid, ls) for a thread with
lines ls still to push followed by a close for stream sid. -/
def slotItems : Option (Nat × List String) → List Item
  | none => []
  | some (sid, ls) => ls.map Item.line ++ [Item.close sid]

/-- Projection selecting line items. -/
def lineOf : Item → Option String
  | Item.line s => some s
  | Item.close _ => none

/-- One step of an interleaving: remove the head of one of the component
lists. -/
inductive PickOne {α : Type} : List (List α) → α → List (List α) → Prop where
  | here (x : α) (l : List α) (rest : List (List α)) :
      PickOne ((x :: l) :: rest) x (l :: rest)
  | there (l : List α) {rest rest2 : List (List α)} {x : α}
      (h : PickOne rest x rest2) : PickOne (l :: rest) x (l :: rest2)

/-- Order-preserving interleaving of several lists: the possible FIFO queue
contents produced by concurrently running threads each pushing its own list
in order.  This quantifies over every interleaving of the reader threads. -/
inductive Shuffle {α : Type} : List (List α) → List α → Prop where
  | done (srcs : List (List α)) (h : ∀ l ∈ srcs, l = []) : Shuffle srcs []
  | step {srcs srcs2 : List (List α)} {x : α} {out : List α}
      (hp : PickOne srcs x srcs2) (hs : Shuffle srcs2 out) : Shuffle srcs (x :: out)

/-- Membership test of the Python expression needle in hay, on character
lists: a prefix check. -/
def startsWithL : List Char → List Char → Bool
  | [], _ => true
  | _ :: _, [] => false
  | a :: as, b :: bs => a == b && startsWithL as bs

/-- Membership test of the Python expression needle in hay, on character
lists: substring containment at any position. -/
def containsSubL (needle : List Char) : List Char → Bool
  | [] => needle.isEmpty
  | h :: t => startsWithL needle (h :: t) || containsSubL needle t

/-- Python substring containment operator on strings. -/
def pyIn (needle hay : String) : Bool := containsSubL needle.data hay.data

/-- Outcome of one Xvfb spawn attempt after the half-second grace sleep:
still running (poll() is None), or exited with the given stderr output. -/
inductive XOutcome where
  | running
  | exited (err : String)
  deriving DecidableEq

/-- Result of start_headless_x: a running server on a display, a startup
failure carrying the stderr output, or exhaustion of the retry loop. -/
inductive XRes where
  | ok (display : String)
  | startupFailure (err : String)
  | retriesExhausted
  deriving DecidableEq

/-- Does the Xvfb outcome report a display collision (the branch taken by the
code when the stderr output contains the marker)? -/
def isBusyOutcome : XOutcome → Bool
  | XOutcome.running => false
  | XOutcome.exited err => pyIn "Server is already active" err

/-- Embedding of pick_random_display (lines 135-136) applied to the value
drawn from random.randint. -/
def pick_random_display (r : Nat) : String := ":" ++ toString r

/-- Loop body of start_headless_x (lines 138-160), with the attempt index and
the remaining iterations of for _ in range(10) explicit.  envX gives the
process outcome of each spawn on each display; randX the random draws.  The
returned list records the display of every spawn attempt made. -/
def start_headless_x_go (envX : Nat → String → XOutcome) (randX : Nat → Nat)
    (display : Option String) : Nat → Nat → List String × XRes
  | _, 0 => ([], XRes.retriesExhausted)
  | i, k + 1 =>
    let chosen := display.getD (pick_random_display (randX i))
    match envX i chosen with
    | XOutcome.running => ([chosen], XRes.ok chosen)
    | XOutcome.exited err =>
      if pyIn "Server is already active" err then
        let r := start_headless_x_go envX randX display (i + 1) k
        (chosen :: r.1, r.2)
      else ([chosen], XRes.startupFailure err)

/-- Embedding of start_headless_x (lines 138-160). -/
def start_headless_x (envX : Nat → String → XOutcome) (randX : Nat → Nat)
    (display : Option String) : List String × XRes :=
  start_headless_x_go envX randX display 0 10

/-- Result of wait_for_selenium_start: the raised startup failure on the end
marker, success on the ready signal, or the retry indication on the port
collision signal. -/
inductive WaitRes where
  | fail
  | ready
  | collision
  deriving DecidableEq

/-- Embedding of wait_for_selenium_start (lines 187-209) acting on the
sequence of lines successively returned by the merged stream.  A none result
means the loop never terminates (the merged stream blocks before producing a
recognized line or its end marker). -/
def wait_for_selenium_start : List String → Option WaitRes
  | [] => none
  | l :: rest =>
    if l = "" then some WaitRes.fail
    else if pyIn "Started SocketListener on" l then some WaitRes.ready
    else if pyIn "Selenium is already running on port" l then some WaitRes.collision
    else wait_for_selenium_start rest

/-- Result of start_selenium_server: a server bound to a port, a propagated
exception, or divergence (its wait loop never terminating). -/
inductive SrvRes where
  | ok (port : Nat)
  | excFail (e : PyExc)
  | hang
  deriving DecidableEq

/-- Loop body of start_selenium_server (lines 165-185).  envv is the process
environment, ports the random port draws per attempt, linesS the line
sequence the spawned server's merged output yields on each attempt.  The
returned list records the port of every spawn (Popen) performed; the
environment lookup of SELENIUM_SERVER_JAR happens before the spawn, so a
missing key raises before any process is created. -/
def start_selenium_server_go (envv : String → Option String) (ports : Nat → Nat)
    (linesS : Nat → List String) : Nat → Nat → List Nat × SrvRes
  | _, 0 => ([], SrvRes.excFail (PyExc.exception "Failed to start selenium server"))
  | i, k + 1 =>
    let port := ports i
    match envv "SELENIUM_SERVER_JAR" with
    | none => ([], SrvRes.excFail (PyExc.keyError "SELENIUM_SERVER_JAR"))
    | some _ =>
      match wait_for_selenium_start (linesS i) with
      | none => ([port], SrvRes.hang)
      | some WaitRes.fail =>
          ([port], SrvRes.excFail (PyExc.exception "Selenium server failed to start"))
      | some WaitRes.ready => ([port], SrvRes.ok port)
      | some WaitRes.collision =>
          let r := start_selenium_server_go envv ports linesS (i + 1) k
          (port :: r.1, r.2)

/-- Embedding of start_selenium_server (lines 165-185). -/
def start_selenium_server (envv : String → Option String) (ports : Nat → Nat)
    (linesS : Nat → List String) : List Nat × SrvRes :=
  start_selenium_server_go envv ports linesS 0 10

/-- Loop body of start_selenium (lines 211-223).  outcome gives the exception
raised by sel.start() on each attempt (none for success).  The boolean is
true if the client started, false if the loop exhausted its ten attempts and
raised; the event list records the start calls and the fixed two-second
sleeps performed after each failed attempt. -/
def start_selenium_go (outcome : Nat → Option PyExc) : Nat → Nat → List Ev × Bool
  | _, 0 => ([], false)
  | i, k + 1 =>
    match outcome i with
    | none => ([Ev.clientStart], true)
    | some _ =>
      let r := start_selenium_go outcome (i + 1) k
      (Ev.clientStart :: Ev.sleep 2 :: r.1, r.2)

/-- Embedding of start_selenium (lines 211-223). -/
def start_selenium (outcome : Nat → Option PyExc) : List Ev × Bool :=
  start_selenium_go outcome 0 10

/-- Embedding of the module top level (lines 19-35): it configures the
selscrape logger and defines functions; it performs no lookup in the process
environment, so loading the module succeeds for every environment, in
particular one missing SELENIUM_SERVER_JAR. -/
def module_level_init (_envv : String → Option String) : Except PyExc String :=
  Except.ok "selscrape"

/-- Decomposition of one interleaving step: the picked element was the head of
one component list. -/
theorem pickOne_decomp {α : Type} {srcs : List (List α)} {x : α}
    {srcs2 : List (List α)} (h : PickOne srcs x srcs2) :
    ∃ b1 l b2, srcs = b1 ++ (x :: l) :: b2 ∧ srcs2 = b1 ++ l :: b2 := by
  induction h with
  | here x l rest => exact ⟨[], l, rest, rfl, rfl⟩
  | there l h ih =>
    obtain ⟨b1, l2, b2, h1, h2⟩ := ih
    exact ⟨l :: b1, l2, b2, by simp [h1], by simp [h2]⟩

/-- Decomposition of one interleaving step over a mapped family of lists. -/
theorem pickOne_map {α β : Type} (f : β → List α) {srcs : List (List α)} {x : α}
    {srcs2 : List (List α)} (h : PickOne srcs x srcs2) :
    ∀ bs : List β, srcs = bs.map f →
      ∃ b1 b b2 l, bs = b1 ++ b :: b2 ∧ f b = x :: l ∧
        srcs2 = b1.map f ++ l :: b2.map f := by
  induction h with
  | here x l rest =>
    intro bs hbs
    cases bs with
    | nil => simp at hbs
    | cons b bs2 =>
      rw [List.map_cons] at hbs
      injection hbs with h1 h2
      exact ⟨[], b, bs2, l, rfl, h1.symm, by simp [h2]⟩
  | there lhd h ih =>
    intro bs hbs
    cases bs with
    | nil => simp at hbs
    | cons b bs2 =>
      rw [List.map_cons] at hbs
      injection hbs with h1 h2
      obtain ⟨b1, b0, b2, l, hb, hf, hl⟩ := ih bs2 h2
      exact ⟨b :: b1, b0, b2, l, by simp [hb], hf, by simp [hl, h1]⟩

/-- An interleaving of several lists is a permutation of their concatenation:
nothing is dropped and nothing is duplicated. -/
theorem shuffle_perm {α : Type} {srcs : List (List α)} {out : List α}
    (h : Shuffle srcs out) : out.Perm srcs.flatten := by
  induction h with
  | done srcs h => simp [List.flatten_eq_nil_iff.mpr h]
  | @step srcs srcs2 x out hp hs ih =>
    obtain ⟨b1, l, b2, h1, h2⟩ := pickOne_decomp hp
    subst h1; subst h2
    refine (ih.cons x).trans ?_
    simp only [List.flatten_append, List.flatten_cons, List.cons_append]
    exact List.perm_middle.symm

/-- Core drain lemma: consuming a full interleaved queue trace with readline,
starting from an active list that is a permutation of the still-open slot
tags, yields exactly the line items of the trace, in trace order. -/
theorem drain_eq_filterMap {srcs : List (List Item)} {trace : List Item}
    (hsh : Shuffle srcs trace) :
    ∀ (slots : List (Option (Nat × List String))) (active : List Nat),
      srcs = slots.map slotItems →
      active.Perm (slots.filterMap (fun o => o.map Prod.fst)) →
      MergedStream.drainLines trace active = trace.filterMap lineOf := by
  induction hsh with
  | done srcs hdone =>
    intro slots active hmap hperm
    cases active with
    | nil => rfl
    | cons a as => rfl
  | @step srcs srcs2 x out hp hs ih =>
    intro slots active hmap hperm
    subst hmap
    obtain ⟨s1, s0, s2, l, hslots, hf, hsrcs2⟩ := pickOne_map slotItems hp slots rfl
    subst hslots
    cases s0 with
    | none => simp [slotItems] at hf
    | some p =>
      obtain ⟨sid, ls⟩ := p
      cases ls with
      | nil =>
        simp only [slotItems, List.map_nil, List.nil_append] at hf
        have hx : x = Item.close sid := by injection hf with hf1 hf2; exact hf1.symm
        have hl : l = [] := by injection hf with hf1 hf2; exact hf2.symm
        subst hx; subst hl
        have hsid : sid ∈ active := by
          refine hperm.mem_iff.mpr ?_
          rw [List.filterMap_append]
          refine List.mem_append_right _ ?_
          simp
        cases active with
        | nil => simp at hsid
        | cons a as =>
          have hp1 : (a :: as).Perm
              (sid :: (s1.filterMap (fun o => o.map Prod.fst)
                ++ s2.filterMap (fun o => o.map Prod.fst))) := by
            refine hperm.trans ?_
            simp only [List.filterMap_append, List.filterMap_cons, Option.map_some']
            exact List.perm_middle
          have hperm2 : ((a :: as).erase sid).Perm
              ((s1 ++ none :: s2).filterMap (fun o => o.map Prod.fst)) := by
            have h3 := hp1.erase sid
            rw [List.erase_cons_head] at h3
            simpa [List.filterMap_append] using h3
          have hdrain : MergedStream.drainLines out ((a :: as).erase sid)
              = out.filterMap lineOf :=
            ih (s1 ++ none :: s2) ((a :: as).erase sid)
              (by simp [hsrcs2, slotItems]) hperm2
          simp [MergedStream.drainLines, lineOf, hdrain]
      | cons m ms =>
        simp only [slotItems, List.map_cons, List.cons_append] at hf
        have hx : x = Item.line m := by injection hf with hf1 hf2; exact hf1.symm
        have hl : l = List.map Item.line ms ++ [Item.close sid] := by
          injection hf with hf1 hf2; exact hf2.symm
        subst hx; subst hl
        have hsid : sid ∈ active := by
          refine hperm.mem_iff.mpr ?_
          rw [List.filterMap_append]
          refine List.mem_append_right _ ?_
          simp
        cases active with
        | nil => simp at hsid
        | cons a as =>
          have hdrain : MergedStream.drainLines out (a :: as) = out.filterMap lineOf :=
            ih (s1 ++ some (sid, ms) :: s2) (a :: as)
              (by simp [hsrcs2, slotItems])
              (by simpa [List.filterMap_append] using hperm)
          simp [MergedStream.drainLines, lineOf, hdrain]

/-- A reader thread over a stream none of whose lines is empty pushes exactly
the stream's lines followed by its close notification. -/
theorem stream_pusher_eq (sid : Nat) (ls : List String) (h : "" ∉ ls) :
    MergedStream.stream_pusher sid ls = slotItems (some (sid, ls)) := by
  induction ls with
  | nil => rfl
  | cons l rest ih =>
    rw [List.mem_cons, not_or] at h
    obtain ⟨h1, h2⟩ := h
    simp only [MergedStream.stream_pusher, slotItems, List.map_cons, List.cons_append]
    rw [if_neg (fun he => h1 he.symm), ih h2]
    simp [slotItems]

/-- The reader threads of a MergedStream, none of whose streams contains an
empty line, are the slot families of the construction. -/
theorem pusher_map_eq (streams : List (Nat × List String))
    (hne : ∀ p ∈ streams, "" ∉ p.2) :
    streams.map (fun p => MergedStream.stream_pusher p.1 p.2)
      = (streams.map some).map slotItems := by
  rw [List.map_map]
  exact List.map_congr_left (fun p hp => stream_pusher_eq p.1 p.2 (hne p hp))

/-- The open tags of the initial slots are the stream tags. -/
theorem active_filterMap_eq (streams : List (Nat × List String)) :
    (streams.map some).filterMap (fun o => o.map Prod.fst) = streams.map Prod.fst := by
  induction streams with
  | nil => rfl
  | cons p ps ih => simp [ih]

/-- Composing the line projection with the line constructor gives some. -/
theorem lineOf_comp_line : (lineOf ∘ Item.line) = some :=
  funext (fun _ => rfl)

/-- The line items of all reader-thread pushes, concatenated, are the lines of
all streams, concatenated. -/
theorem flatten_filterMap_lines (streams : List (Nat × List String)) :
    (((streams.map some).map slotItems).flatten).filterMap lineOf
      = (streams.map Prod.snd).flatten := by
  induction streams with
  | nil => rfl
  | cons p ps ih =>
    simp only [List.map_cons, List.flatten_cons, List.filterMap_append, ih]
    congr 1
    simp [slotItems, List.filterMap_append, lineOf_comp_line, List.filterMap_some, lineOf]

/-- C1: for every finite collection of M input streams jointly containing N
lines, a MergedStream built over them yields, via successive readline calls,
exactly those N lines, each exactly once with no duplicates and no drops,
before it first yields the end marker, for every interleaving of the
per-stream reader tasks.  Each stream is a tag paired with the lines it
yields before end-of-file (real stream reads return the empty string only at
end-of-file, hence the hypothesis), and the queue trace ranges over every
interleaving of the reader threads. -/
theorem mergedStream_yields_each_line_once (streams : List (Nat × List String))
    (trace : List Item)
    (hne : ∀ p ∈ streams, "" ∉ p.2)
    (hsh : Shuffle (streams.map (fun p => MergedStream.stream_pusher p.1 p.2)) trace) :
    (MergedStream.drainLines trace (streams.map Prod.fst)).Perm
      ((streams.map Prod.snd).flatten) := by
  rw [pusher_map_eq streams hne] at hsh
  have hdrain := drain_eq_filterMap hsh (streams.map some) (streams.map Prod.fst) rfl
      (by rw [active_filterMap_eq])
  rw [hdrain]
  have hperm := (shuffle_perm hsh).filterMap lineOf
  rw [flatten_filterMap_lines] at hperm
  exact hperm

/-- Witness for C1 at a concrete two-stream instance with an interleaved
queue trace. -/
theorem mergedStream_yields_each_line_once_witness :
    (MergedStream.drainLines [Item.line "b", Item.line "a", Item.close 0, Item.close 1]
        ([((0 : Nat), ["a"]), (1, ["b"])].map Prod.fst)).Perm
      (([((0 : Nat), ["a"]), (1, ["b"])].map Prod.snd).flatten) := by
  have hs : ([((0 : Nat), ["a"]), (1, ["b"])].map
      (fun p => MergedStream.stream_pusher p.1 p.2))
      = [[Item.line "a", Item.close 0], [Item.line "b", Item.close 1]] := by decide
  have hsh : Shuffle ([((0 : Nat), ["a"]), (1, ["b"])].map
      (fun p => MergedStream.stream_pusher p.1 p.2))
      [Item.line "b", Item.line "a", Item.close 0, Item.close 1] := by
    rw [hs]
    exact Shuffle.step (PickOne.there _ (PickOne.here _ _ _))
      (Shuffle.step (PickOne.here _ _ _)
        (Shuffle.step (PickOne.here _ _ _)
          (Shuffle.step (PickOne.there _ (PickOne.here _ _ _))
            (Shuffle.done _ (by simp)))))
  exact mergedStream_yields_each_line_once _ _ (by decide) hsh

/-- C4: once every member stream has transitioned to closed (each having
produced its final empty read, so its close notification was consumed and the
active list is empty), readline yields the end-of-data signal; before that
point readline blocks (returns no value) when no item is available while
members remain open; and over the whole consumption sequence of a MergedStream
the end marker appears exactly once, as the terminator, since no yielded line
is the empty string. -/
theorem mergedStream_readline_blocks_or_ends (streams : List (Nat × List String))
    (trace : List Item) (q : List Item) (active : List Nat)
    (hne : ∀ p ∈ streams, "" ∉ p.2)
    (hsh : Shuffle (streams.map (fun p => MergedStream.stream_pusher p.1 p.2)) trace)
    (hactive : active ≠ []) :
    MergedStream.readline q [] = some ("", q, []) ∧
    MergedStream.readline [] active = none ∧
    (MergedStream.drainLines trace (streams.map Prod.fst) ++ [""]).count "" = 1 := by
  refine ⟨?_, ?_, ?_⟩
  · simp [MergedStream.readline]
  · cases active with
    | nil => exact absurd rfl hactive
    | cons a as => simp [MergedStream.readline]
  · rw [pusher_map_eq streams hne] at hsh
    have hdrain := drain_eq_filterMap hsh (streams.map some) (streams.map Prod.fst) rfl
        (by rw [active_filterMap_eq])
    rw [hdrain]
    have hmem : Item.line "" ∉ trace := by
      intro hmem
      have h2 := (shuffle_perm hsh).mem_iff.mp hmem
      rw [List.mem_flatten] at h2
      obtain ⟨src, hsrc, hmem2⟩ := h2
      rw [List.mem_map] at hsrc
      obtain ⟨o, ho, rfl⟩ := hsrc
      rw [List.mem_map] at ho
      obtain ⟨p, hp, rfl⟩ := ho
      simp only [slotItems, List.mem_append] at hmem2
      cases hmem2 with
      | inl h3 =>
        rw [List.mem_map] at h3
        obtain ⟨s, hs, he⟩ := h3
        injection he with he2
        exact hne p hp (he2 ▸ hs)
      | inr h3 => simp at h3
    have hno : "" ∉ trace.filterMap lineOf := by
      intro hmem2
      rw [List.mem_filterMap] at hmem2
      obtain ⟨it, hit, hl⟩ := hmem2
      cases it with
      | line s =>
        simp only [lineOf, Option.some.injEq] at hl
        exact hmem (hl ▸ hit)
      | close sid => simp [lineOf] at hl
    rw [List.count_append, List.count_eq_zero.mpr hno]
    rfl

/-- Witness for C4 at a concrete one-stream instance. -/
theorem mergedStream_readline_blocks_or_ends_witness :
    MergedStream.readline [] [] = some ("", [], []) ∧
    MergedStream.readline [] [5] = none ∧
    (MergedStream.drainLines [Item.line "a", Item.close 0]
        ([((0 : Nat), ["a"])].map Prod.fst) ++ [""]).count "" = 1 := by
  have hs : ([((0 : Nat), ["a"])].map (fun p => MergedStream.stream_pusher p.1 p.2))
      = [[Item.line "a", Item.close 0]] := by decide
  have hsh : Shuffle ([((0 : Nat), ["a"])].map
      (fun p => MergedStream.stream_pusher p.1 p.2))
      [Item.line "a", Item.close 0] := by
    rw [hs]
    exact Shuffle.step (PickOne.here _ _ _)
      (Shuffle.step (PickOne.here _ _ _) (Shuffle.done _ (by simp)))
  exact mergedStream_readline_blocks_or_ends _ _ [] [5] (by decide) hsh (by simp)

/-- C8: a MergedStream constructed over an empty collection of streams has an
empty active list and an empty queue, and the first readline call returns the
end marker immediately, with no blocking on the internal queue. -/
theorem mergedStream_empty_returns_end_marker :
    MergedStream.readline [] (([] : List (Nat × List String)).map Prod.fst)
      = some ("", [], []) := rfl

/-- C2: for every process handle acquired via with_proc (a successful spawn)
and every exit path from the protected scope (body finishing normally or
raising, modelled by an arbitrary body computation), the kill is attempted
and then the wait is executed, in that order, as the last two events of the
scope; in particular this holds when kill itself raises (any killExc). -/
theorem with_proc_kill_then_wait (pid : Nat) (killExc : Option PyExc) (body : Comp) :
    (with_proc pid none killExc body).evs
      = Ev.spawn pid :: (body.evs ++ [Ev.kill pid, Ev.wait pid]) := by
  simp [with_proc, seqc, tryFin]

/-- C6: for every session created by with_selenium (both spawns and the
client startup succeed), on scope exit, whether the body completes normally
or raises, teardown happens in reverse acquisition order: the client is
stopped first, then the selenium server (tag 1) is killed and reaped, then
the display server (tag 0) is killed and reaped. -/
theorem with_selenium_teardown_reverse_order (startEvs : List Ev)
    (stopExc xKillExc sKillExc : Option PyExc) (body : Comp) :
    (with_selenium ⟨startEvs, none⟩ stopExc none xKillExc none sKillExc body).evs
      = (Ev.spawn 0 :: Ev.spawn 1 :: startEvs) ++ body.evs
          ++ [Ev.clientStop, Ev.kill 1, Ev.wait 1, Ev.kill 0, Ev.wait 0] := by
  simp [with_selenium, with_proc, seqc, tryFin]

/-- When every spawn on the explicit display reports a collision, the
start_headless_x loop spawns on that same display on all k remaining
iterations and ends in the retry-exhaustion failure. -/
theorem goX_explicit_collision (envX : Nat → String → XOutcome) (randX : Nat → Nat)
    (d : String) (hcol : ∀ i, isBusyOutcome (envX i d) = true) :
    ∀ (k j : Nat), start_headless_x_go envX randX (some d) j k
      = (List.replicate k d, XRes.retriesExhausted) := by
  intro k
  induction k with
  | zero => intro j; rfl
  | succ k ih =>
    intro j
    have h := hcol j
    cases he : envX j d with
    | running => rw [he] at h; exact absurd h (by simp [isBusyOutcome])
    | exited err =>
      rw [he] at h
      simp only [isBusyOutcome] at h
      simp [start_headless_x_go, Option.getD, he, h, ih (j + 1), List.replicate_succ]

/-- C3 counterexample: with the explicit display ":5" and an environment in
which every Xvfb spawn exits reporting that the server is already active,
start_headless_x performs ten spawn attempts - it retries rather than
failing terminally on the first collision - and the error it ends with is
the retry-exhaustion failure, not a first-attempt startup failure. -/
theorem start_headless_x_explicit_collision_retries :
    (start_headless_x (fun _ _ => XOutcome.exited "Server is already active")
        (fun _ => 1) (some ":5")).1.length = 10 ∧
    (start_headless_x (fun _ _ => XOutcome.exited "Server is already active")
        (fun _ => 1) (some ":5")).2 = XRes.retriesExhausted :=
  ⟨by decide, by decide⟩

/-- C3 (amended): when start_headless_x is called with an explicit display
identifier and every spawned display server exits reporting the identifier
already in use, the call retries with the same explicit identifier on every
one of its ten attempts - it never substitutes an allocator-chosen
identifier for the explicit one - and then fails terminally with the
retry-exhaustion failure. -/
theorem start_headless_x_explicit_never_substitutes (envX : Nat → String → XOutcome)
    (randX : Nat → Nat) (d : String) (hcol : ∀ i, isBusyOutcome (envX i d) = true) :
    start_headless_x envX randX (some d)
      = (List.replicate 10 d, XRes.retriesExhausted) :=
  goX_explicit_collision envX randX d hcol 10 0

/-- Witness for the amended C3 at a concrete collision environment. -/
theorem start_headless_x_explicit_never_substitutes_witness :
    start_headless_x (fun _ _ => XOutcome.exited "Server is already active")
        (fun _ => 3) (some ":7")
      = (List.replicate 10 ":7", XRes.retriesExhausted) :=
  start_headless_x_explicit_never_substitutes _ _ _ (fun i => by decide)

/-- The start_headless_x loop performs at most as many spawn attempts as it
has remaining iterations. -/
theorem goX_len_le (envX : Nat → String → XOutcome) (randX : Nat → Nat)
    (display : Option String) :
    ∀ (k j : Nat), (start_headless_x_go envX randX display j k).1.length ≤ k := by
  intro k
  induction k with
  | zero => intro j; simp [start_headless_x_go]
  | succ k ih =>
    intro j
    simp only [start_headless_x_go]
    cases envX j (display.getD (pick_random_display (randX j))) with
    | running => simp
    | exited err =>
      by_cases h : pyIn "Server is already active" err = true
      · simpa [h] using Nat.succ_le_succ (ih (j + 1))
      · simp [h]

/-- When every attempt of the allocator-driven start_headless_x loop reports
a collision, it performs exactly k spawn attempts and ends exhausted. -/
theorem goX_collision_none (envX : Nat → String → XOutcome) (randX : Nat → Nat)
    (hcol : ∀ i, isBusyOutcome (envX i (pick_random_display (randX i))) = true) :
    ∀ (k j : Nat), (start_headless_x_go envX randX none j k).1.length = k ∧
      (start_headless_x_go envX randX none j k).2 = XRes.retriesExhausted := by
  intro k
  induction k with
  | zero => intro j; exact ⟨rfl, rfl⟩
  | succ k ih =>
    intro j
    have h := hcol j
    cases he : envX j (pick_random_display (randX j)) with
    | running => rw [he] at h; exact absurd h (by simp [isBusyOutcome])
    | exited err =>
      rw [he] at h
      simp only [isBusyOutcome] at h
      have h2 := ih (j + 1)
      refine ⟨?_, ?_⟩ <;>
        simp [start_headless_x_go, Option.getD, he, h, h2.1, h2.2]

/-- The start_selenium_server loop performs at most as many spawns as it has
remaining iterations. -/
theorem goS_len_le (envv : String → Option String) (ports : Nat → Nat)
    (linesS : Nat → List String) :
    ∀ (k j : Nat), (start_selenium_server_go envv ports linesS j k).1.length ≤ k := by
  intro k
  induction k with
  | zero => intro j; simp [start_selenium_server_go]
  | succ k ih =>
    intro j
    simp only [start_selenium_server_go]
    cases envv "SELENIUM_SERVER_JAR" with
    | none => simp
    | some jar =>
      cases wait_for_selenium_start (linesS j) with
      | none => simp
      | some w =>
        cases w with
        | fail => simp
        | ready => simp
        | collision => simpa using Nat.succ_le_succ (ih (j + 1))

/-- When the jar path is configured and every attempt of start_selenium_server
sees the port-collision signal, it performs exactly k spawns and ends with
the retry-exhaustion failure. -/
theorem goS_collision (envv : String → Option String) (ports : Nat → Nat)
    (linesS : Nat → List String) (jar : String)
    (hjar : envv "SELENIUM_SERVER_JAR" = some jar)
    (hcol : ∀ i, wait_for_selenium_start (linesS i) = some WaitRes.collision) :
    ∀ (k j : Nat), (start_selenium_server_go envv ports linesS j k).1.length = k ∧
      (start_selenium_server_go envv ports linesS j k).2
        = SrvRes.excFail (PyExc.exception "Failed to start selenium server") := by
  intro k
  induction k with
  | zero => intro j; exact ⟨rfl, rfl⟩
  | succ k ih =>
    intro j
    have h2 := ih (j + 1)
    refine ⟨?_, ?_⟩ <;>
      simp [start_selenium_server_go, hjar, hcol j, h2.1, h2.2]

/-- C5: for both launchers - start_headless_x with no explicit display and
start_selenium_server - every launch call makes at most 10 allocation
attempts, and if all 10 attempts end in a collision the call raises a
terminal retry-exhausted failure rather than returning or silently
continuing.  The first two groups of inputs carry the all-collision
environments; the second two groups are arbitrary and witness the universal
at-most-10 bound on spawn attempts. -/
theorem launchers_retry_ceiling_ten
    (envX : Nat → String → XOutcome) (randX : Nat → Nat)
    (envv : String → Option String) (ports : Nat → Nat) (linesS : Nat → List String)
    (jar : String)
    (envX2 : Nat → String → XOutcome) (randX2 : Nat → Nat) (display2 : Option String)
    (envv2 : String → Option String) (ports2 : Nat → Nat) (linesS2 : Nat → List String)
    (hcolX : ∀ i, isBusyOutcome (envX i (pick_random_display (randX i))) = true)
    (hjar : envv "SELENIUM_SERVER_JAR" = some jar)
    (hcolS : ∀ i, wait_for_selenium_start (linesS i) = some WaitRes.collision) :
    (start_headless_x envX randX none).1.length = 10 ∧
    (start_headless_x envX randX none).2 = XRes.retriesExhausted ∧
    (start_selenium_server envv ports linesS).1.length = 10 ∧
    (start_selenium_server envv ports linesS).2
      = SrvRes.excFail (PyExc.exception "Failed to start selenium server") ∧
    (start_headless_x envX2 randX2 display2).1.length ≤ 10 ∧
    (start_selenium_server envv2 ports2 linesS2).1.length ≤ 10 := by
  have hx := goX_collision_none envX randX hcolX 10 0
  have hs := goS_collision envv ports linesS jar hjar hcolS 10 0
  exact ⟨hx.1, hx.2, hs.1, hs.2, goX_len_le envX2 randX2 display2 10 0,
    goS_len_le envv2 ports2 linesS2 10 0⟩

/-- Witness for C5 at concrete all-collision environments. -/
theorem launchers_retry_ceiling_ten_witness :
    (start_headless_x (fun _ _ => XOutcome.exited "Server is already active")
        (fun _ => 2) none).1.length = 10 ∧
    (start_headless_x (fun _ _ => XOutcome.exited "Server is already active")
        (fun _ => 2) none).2 = XRes.retriesExhausted ∧
    (start_selenium_server (fun _ => some "/opt/selenium-server.jar") (fun _ => 4444)
        (fun _ => ["Selenium is already running on port 4444"])).1.length = 10 ∧
    (start_selenium_server (fun _ => some "/opt/selenium-server.jar") (fun _ => 4444)
        (fun _ => ["Selenium is already running on port 4444"])).2
      = SrvRes.excFail (PyExc.exception "Failed to start selenium server") ∧
    (start_headless_x (fun _ _ => XOutcome.running) (fun _ => 2)
        (some ":2")).1.length ≤ 10 ∧
    (start_selenium_server (fun _ => some "/opt/selenium-server.jar") (fun _ => 4444)
        (fun _ => ["Started SocketListener on 0.0.0.0:4444"])).1.length ≤ 10 :=
  launchers_retry_ceiling_ten
    (fun _ _ => XOutcome.exited "Server is already active") (fun _ => 2)
    (fun _ => some "/opt/selenium-server.jar") (fun _ => 4444)
    (fun _ => ["Selenium is already running on port 4444"])
    "/opt/selenium-server.jar"
    (fun _ _ => XOutcome.running) (fun _ => 2) (some ":2")
    (fun _ => some "/opt/selenium-server.jar") (fun _ => 4444)
    (fun _ => ["Started SocketListener on 0.0.0.0:4444"])
    (fun _ => show isBusyOutcome (XOutcome.exited "Server is already active") = true
      by decide)
    rfl
    (fun _ => show wait_for_selenium_start ["Selenium is already running on port 4444"]
        = some WaitRes.collision by decide)

/-- With SELENIUM_SERVER_JAR absent the first loop iteration of
start_selenium_server raises the KeyError before any spawn, for any positive
number of remaining iterations. -/
theorem goS_missing_jar (envv : String → Option String) (ports : Nat → Nat)
    (linesS : Nat → List String) (h : envv "SELENIUM_SERVER_JAR" = none) (k j : Nat) :
    start_selenium_server_go envv ports linesS j (k + 1)
      = ([], SrvRes.excFail (PyExc.keyError "SELENIUM_SERVER_JAR")) := by
  simp [start_selenium_server_go, h]

/-- C7: if the environment variable SELENIUM_SERVER_JAR is absent, loading
the module raises nothing (its top level performs no environment lookup);
instead start_selenium_server raises the KeyError at launch time, on its
first iteration, with no spawn performed and no retry by the launch loop. -/
theorem selenium_server_jar_missing_surfaces_at_launch
    (envv : String → Option String) (ports : Nat → Nat) (linesS : Nat → List String)
    (h : envv "SELENIUM_SERVER_JAR" = none) :
    start_selenium_server envv ports linesS
      = ([], SrvRes.excFail (PyExc.keyError "SELENIUM_SERVER_JAR")) ∧
    module_level_init envv = Except.ok "selscrape" :=
  ⟨goS_missing_jar envv ports linesS h 9 0, rfl⟩

/-- Witness for C7 with an empty environment. -/
theorem selenium_server_jar_missing_surfaces_at_launch_witness :
    start_selenium_server (fun _ => none) (fun _ => 1) (fun _ => [])
      = ([], SrvRes.excFail (PyExc.keyError "SELENIUM_SERVER_JAR")) ∧
    module_level_init (fun _ => none) = Except.ok "selscrape" :=
  selenium_server_jar_missing_surfaces_at_launch _ _ _ rfl

/-- C9: in wait_for_selenium_start, a line containing none of the recognized
markers - it is not the empty end marker, does not contain the ready signal
and does not contain the port-collision signal - is logged and skipped: the
loop outcome on the remaining lines is unchanged, so only the three marker
kinds determine how the read loop terminates. -/
theorem wait_for_selenium_start_skips_unrecognized (l : String) (rest : List String)
    (hne : l ≠ "")
    (h1 : pyIn "Started SocketListener on" l = false)
    (h2 : pyIn "Selenium is already running on port" l = false) :
    wait_for_selenium_start (l :: rest) = wait_for_selenium_start rest := by
  simp [wait_for_selenium_start, hne, h1, h2]

/-- Witness for C9 on a concrete unrecognized log line. -/
theorem wait_for_selenium_start_skips_unrecognized_witness :
    wait_for_selenium_start
        ["15:04:32 INFO - Java bound", "Started SocketListener on 0.0.0.0:4444"]
      = wait_for_selenium_start ["Started SocketListener on 0.0.0.0:4444"] :=
  wait_for_selenium_start_skips_unrecognized _ _ (by decide) (by decide) (by decide)

/-- When the first k attempts of start_selenium all raise, the loop performs
k start calls each followed by a two-unit sleep, and ends by raising once
the iterations run out. -/
theorem goSel_all_fail (outcome : Nat → Option PyExc) :
    ∀ (k j : Nat), (∀ i, i < k → outcome (j + i) ≠ none) →
      start_selenium_go outcome j k
        = ((List.replicate k [Ev.clientStart, Ev.sleep 2]).flatten, false) := by
  intro k
  induction k with
  | zero => intro j h; rfl
  | succ k ih =>
    intro j h
    have h0 : outcome j ≠ none := by simpa using h 0 (Nat.succ_pos k)
    cases ho : outcome j with
    | none => exact absurd ho h0
    | some e =>
      have hrec := ih (j + 1) (fun i hi => by
        have h3 := h (i + 1) (Nat.succ_lt_succ hi)
        rwa [show j + (i + 1) = j + 1 + i by omega] at h3)
      simp [start_selenium_go, ho, hrec, List.replicate_succ]

/-- C10: start_selenium retries sel.start() on any raised exception
whatsoever - the per-attempt outcome ranges over arbitrary exception values,
all caught alike - sleeping a fixed 2 time units after each failed attempt,
and raises a terminal failure (the false flag) only after 10 consecutive
failed attempts, its event trace being ten start calls each followed by the
fixed sleep. -/
theorem start_selenium_retries_any_exception (outcome : Nat → Option PyExc)
    (hfail : ∀ i, i < 10 → outcome i ≠ none) :
    start_selenium outcome
      = ((List.replicate 10 [Ev.clientStart, Ev.sleep 2]).flatten, false) :=
  goSel_all_fail outcome 10 0 (fun i hi => by simpa using hfail i hi)

/-- Witness for C10 with a mix of distinct exception kinds on the ten
attempts. -/
theorem start_selenium_retries_any_exception_witness :
    start_selenium (fun i => if i % 2 = 0 then some (PyExc.keyError "boom")
        else some (PyExc.exception "client not ready"))
      = ((List.replicate 10 [Ev.clientStart, Ev.sleep 2]).flatten, false) :=
  start_selenium_retries_any_exception _ (fun i _ => by
    by_cases h : i % 2 = 0 <;> simp [h])
